import Mathlib

/-!
Shallow embedding of the remote-provisioners launch-confirmation and
tunnel-orchestration subsystem (remote_provisioner.py and container.py),
together with theorems checking specification claims against it.

Python dictionaries become Lean structures with Option fields (none models
an absent key), Python exceptions become an explicit error type threaded
through Except, and the host operating system (socket binds, random draws,
SSH tunnel child processes, the response channel) is modelled as explicit
state and outcome streams supplied by the environment.
-/

/-- Python-level exceptions raised by the embedded code, one constructor per
raise site that the claims can observe. -/
inductive PyError where
  | valueErrorIntParse (s : String)
  | valueErrorMinSize (range : String)
  | valueErrorInvalidPort (range : String)
  | runtimeErrorRangeParse (range : String)
  | runtimeErrorPortExhausted
  | runtimeErrorLaunchFault
  | runtimeErrorTunnelSpawn (channel : String)
  | runtimeErrorNullConnInfo
  | runtimeErrorRecvFatal
  | permissionErrorSsh
  | timeoutErrorLaunch
  | indexError (what : String)
  | keyError (k : String)
  | processLookupError
  deriving DecidableEq, Repr

deriving instance DecidableEq for Except

/-- Splits a character list on the ".." separator, with the greedy
left-to-right, non-overlapping semantics of the Python str.split call used
on the port_range string. -/
def splitDotsAux : List Char → List Char → List String
  | [], acc => [String.mk acc.reverse]
  | '.' :: '.' :: rest, acc => String.mk acc.reverse :: splitDotsAux rest []
  | c :: rest, acc => splitDotsAux rest (c :: acc)

def splitOnDots (s : String) : List String := splitDotsAux s.data []

def digitsToNat (cs : List Char) : Nat :=
  cs.foldl (fun acc c => acc * 10 + (c.toNat - 48)) 0

/-- Python int(str) over the underlying characters: strips surrounding
whitespace, accepts an optional sign followed by at least one digit;
anything else raises ValueError (modelled here as none). -/
def pyIntChars (cs : List Char) : Option Int :=
  match ((cs.dropWhile Char.isWhitespace).reverse.dropWhile Char.isWhitespace).reverse with
  | [] => none
  | '-' :: rest =>
    if rest ≠ [] ∧ rest.all Char.isDigit then some (-(digitsToNat rest : Int)) else none
  | '+' :: rest =>
    if rest ≠ [] ∧ rest.all Char.isDigit then some ((digitsToNat rest : Int)) else none
  | c :: rest =>
    if (c :: rest).all Char.isDigit then some ((digitsToNat (c :: rest) : Int)) else none

def pyIntCore (s : String) : Option Int := pyIntChars s.data

/-- Default value of env RP_MIN_PORT_RANGE_SIZE. -/
def min_port_range_size : Int := 1000

/-- Embeds RemoteProvisionerBase._validate_port_range: split the configured
port_range string on "..", parse both bounds with int(), and when the width
is nonzero enforce the minimum width and the [1024, 65535] bounds on each
end.  The IndexError from a missing upper bound is caught and re-raised as a
RuntimeError; a ValueError from int() propagates uncaught. -/
def validate_port_range (port_range : String) : Except PyError (Int × Int) :=
  match pyIntCore ((splitOnDots port_range).headD "") with
  | none => .error (.valueErrorIntParse ((splitOnDots port_range).headD ""))
  | some lower_port =>
    match (splitOnDots port_range)[1]? with
    | none => .error (.runtimeErrorRangeParse port_range)
    | some up_str =>
      match pyIntCore up_str with
      | none => .error (.valueErrorIntParse up_str)
      | some upper_port =>
        if upper_port - lower_port ≠ 0 then
          if upper_port - lower_port < min_port_range_size then
            .error (.valueErrorMinSize port_range)
          else if lower_port < 1024 ∨ lower_port > 65535 then
            .error (.valueErrorInvalidPort port_range)
          else if upper_port < 1024 ∨ upper_port > 65535 then
            .error (.valueErrorInvalidPort port_range)
          else .ok (lower_port, upper_port)
        else .ok (lower_port, upper_port)

/-- The two int() parses inside validate_port_range succeed, giving bounds
L and U. -/
def parsesTo (s : String) (L U : Int) : Prop :=
  pyIntCore ((splitOnDots s).headD "") = some L ∧
  ((splitOnDots s)[1]?.bind pyIntCore) = some U

instance (s : String) (L U : Int) : Decidable (parsesTo s L U) := by
  unfold parsesTo; infer_instance

/-- True when the embedded computation raised. -/
def exceptIsError {α : Type} : Except PyError α → Bool
  | .error _ => true
  | .ok _ => false

/-- Default value of env RP_MAX_PORT_RANGE_RETRIES. -/
def max_port_range_retries : Nat := 5

/-- The host OS as the port allocator observes it: the ports currently bound
by this process, externally busy ports, the stream of ephemeral ports the OS
hands out for bind(0), and the entropy stream behind random.randint. -/
structure OSState where
  bound : List Int
  busy : Int → Bool
  eph : Nat → Int
  ephIdx : Nat
  rand : Nat → Nat
  randIdx : Nat

/-- Embeds _get_candidate_port: with an unconfigured range the 0 port is
requested (OS-assigned); otherwise random.randint(lower, upper), modelled as
lower plus an entropy draw reduced modulo the inclusive range width. -/
def get_candidate_port (lower upper : Int) (os : OSState) : Int × OSState :=
  if upper - lower = 0 then (0, os)
  else (lower + (os.rand os.randIdx : Int) % (upper - lower + 1),
        { os with randIdx := os.randIdx + 1 })

/-- Models sock.bind((ip, candidate)) followed by getsockname: binding
candidate 0 makes the OS pick the next ephemeral port, which succeeds only
when that port is positive and free; binding a positive candidate succeeds
iff the candidate is neither bound nor busy.  A successful bind records the
port as bound. -/
def bind_port (candidate : Int) (os : OSState) : Option Int × OSState :=
  if candidate = 0 then
    if 0 < os.eph os.ephIdx ∧ os.eph os.ephIdx ∉ os.bound ∧
        os.busy (os.eph os.ephIdx) = false then
      (some (os.eph os.ephIdx),
       { os with ephIdx := os.ephIdx + 1, bound := os.eph os.ephIdx :: os.bound })
    else (none, { os with ephIdx := os.ephIdx + 1 })
  else
    if 0 < candidate ∧ candidate ∉ os.bound ∧ os.busy candidate = false then
      (some candidate, { os with bound := candidate :: os.bound })
    else (none, os)

/-- Embeds the retry loop of select_socket.  The fuel argument counts the
failures after which the loop will still retry: the source raises once the
retry counter exceeds max_port_range_retries, i.e. on the sixth consecutive
bind failure, so the loop body runs at most fuel + 1 times. -/
def select_socket_go (lower upper : Int) : Nat → OSState → Except PyError (Int × OSState)
  | 0, os =>
    match bind_port (get_candidate_port lower upper os).1
        (get_candidate_port lower upper os).2 with
    | (some p, os2) => .ok (p, os2)
    | (none, _) => .error .runtimeErrorPortExhausted
  | f + 1, os =>
    match bind_port (get_candidate_port lower upper os).1
        (get_candidate_port lower upper os).2 with
    | (some p, os2) => .ok (p, os2)
    | (none, os2) => select_socket_go lower upper f os2

/-- Embeds select_socket. -/
def select_socket (lower upper : Int) (os : OSState) : Except PyError (Int × OSState) :=
  select_socket_go lower upper max_port_range_retries os

/-- Embeds the collection loop of select_ports: one bound socket per
requested port, all of them held open until every port has been chosen. -/
def select_ports_go (lower upper : Int) : Nat → OSState → Except PyError (List Int × OSState)
  | 0, os => .ok ([], os)
  | n + 1, os =>
    match select_socket lower upper os with
    | .error e => .error e
    | .ok (p, os1) =>
      match select_ports_go lower upper n os1 with
      | .error e => .error e
      | .ok (ps, os2) => .ok (p :: ps, os2)

/-- Releases the throwaway sockets once all ports are chosen. -/
def close_ports (ps : List Int) (os : OSState) : OSState :=
  { os with bound := os.bound.filter (fun b => !ps.contains b) }

/-- Embeds select_ports. -/
def select_ports (lower upper : Int) (count : Nat) (os : OSState) :
    Except PyError (List Int × OSState) :=
  match select_ports_go lower upper count os with
  | .error e => .error e
  | .ok (ps, os1) => .ok (ps, close_ports ps os1)

/-- Concrete OS environment used by the witnesses: no port bound or busy,
sequential entropy. -/
def os_demo : OSState :=
  { bound := [], busy := fun _ => false, eph := fun _ => 0, ephIdx := 0,
    rand := fun i => i, randIdx := 0 }

/-- Concrete run of the allocator for the C8 witness. -/
def sel_demo : Except PyError (List Int × OSState) := select_ports 2000 3000 3 os_demo

def sel_demo_ports : List Int :=
  match sel_demo with | .ok (ps, _) => ps | .error _ => []

def sel_demo_os : OSState :=
  match sel_demo with | .ok (_, o) => o | .error _ => os_demo

/-- Concrete OS environment in which every port is busy, for the C9
witness. -/
def os_busy_demo : OSState :=
  { bound := [], busy := fun _ => true, eph := fun _ => 0, ephIdx := 0,
    rand := fun i => i, randIdx := 0 }

/-- Outcome of one attempt to send a request to the in-band kernel listener
over TCP, as observed by send_listener_request. -/
inductive ListenerOutcome where
  | delivered
  | connRefused
  | otherError
  deriving DecidableEq, Repr

/-- Observable side effects of the signaling and shutdown paths. -/
inductive SignalAction where
  | listenerRequest (signum : Int)
  | listenerShutdownRequest
  | killpg (pgid : Int) (signum : Int)
  | procSignal (signum : Int)
  | pollContainer
  | terminateContainerResources
  | terminateTunnel (channel : String) (proc : Nat)
  deriving DecidableEq, Repr

/-- Result of a signaling entry point: a normal return with the Python
return value, or a propagated exception. -/
inductive SigResult where
  | ret (v : Option Int)
  | raised (e : PyError)
  deriving DecidableEq, Repr

/-- The provisioner fields read by the base-class signaling path. -/
structure SigState where
  comm_port : Int
  local_proc : Bool
  pgid : Int
  deriving DecidableEq, Repr

/-- Environment behavior for one send_signal call: what the listener
connection does, whether os.killpg is available and succeeds, and whether
the direct local_proc.send_signal call raises. -/
structure SigEnv where
  listener : ListenerOutcome
  hasKillpg : Bool
  killpgOk : Bool
  procSignalOk : Bool
  deriving DecidableEq, Repr

/-- Embeds RemoteProvisionerBase.send_signal_via_listener: when a comm port
is established, attempt the request; success and connection-refused both
count as delivered, while any other failure logs a warning and reports the
signal as not delivered. -/
def send_signal_via_listener (st : SigState) (env : SigEnv) (signum : Int) :
    Bool × List SignalAction :=
  if st.comm_port > 0 then
    match env.listener with
    | .delivered => (true, [.listenerRequest signum])
    | .connRefused => (true, [.listenerRequest signum])
    | .otherError => (false, [.listenerRequest signum])
  else (false, [])

/-- Embeds RemoteProvisionerBase.send_signal: listener tier first; if the
signal was not delivered and a local process exists, try the process group
(an OSError from killpg falls through), then the direct process signal,
whose exceptions propagate to the caller. -/
def base_send_signal (st : SigState) (env : SigEnv) (signum : Int) :
    SigResult × List SignalAction :=
  match send_signal_via_listener st env signum with
  | (true, acts) => (.ret none, acts)
  | (false, acts) =>
    if st.local_proc then
      if st.pgid > 0 ∧ env.hasKillpg then
        if env.killpgOk then (.ret none, acts ++ [.killpg st.pgid signum])
        else if env.procSignalOk then
          (.ret none, acts ++ [.killpg st.pgid signum, .procSignal signum])
        else
          (.raised .processLookupError,
           acts ++ [.killpg st.pgid signum, .procSignal signum])
      else if env.procSignalOk then (.ret none, acts ++ [.procSignal signum])
      else (.raised .processLookupError, acts ++ [.procSignal signum])
    else (.ret none, acts)

/-- The ContainerProvisioner fields read by its signaling paths. -/
structure ContainerState where
  comm_port : Int
  local_proc : Bool
  pgid : Int
  container_name : Option String
  deriving DecidableEq, Repr

/-- Environment behavior for one container signaling call.
Modelled from the spec: get_container_status, get_initial_states and
terminate_container_resources are abstract in src (implemented by
runtime-specific subclasses); they are represented here by the status value
and initial-state set the container runtime would report. -/
structure ContainerEnv where
  sig : SigEnv
  containerStatus : Option String
  initialStates : List String
  deriving DecidableEq, Repr

/-- Python truthiness of an optional string (None and the empty string are
falsy). -/
def pyTruthyStr : Option String → Bool
  | none => false
  | some s => !(s == "")

/-- Embeds ContainerProvisioner.poll: active (None result) while no status
is available or the container is in an initial phase, else exit code 0. -/
def container_poll (env : ContainerEnv) : SigResult × List SignalAction :=
  match env.containerStatus with
  | none => (.ret none, [.pollContainer])
  | some s =>
    if s ∈ env.initialStates then (.ret none, [.pollContainer])
    else (.ret (some 0), [.pollContainer])

/-- Embeds ContainerProvisioner.kill: terminates container resources only
when a container name is assigned (Python truthiness). -/
def container_kill (st : ContainerState) : SigResult × List SignalAction :=
  if pyTruthyStr st.container_name then (.ret none, [.terminateContainerResources])
  else (.ret none, [])

/-- signal.SIGKILL on the platforms the source targets. -/
def SIGKILL : Int := 9

/-- Embeds ContainerProvisioner.send_signal: 0 is a liveness probe routed
to poll, SIGKILL is routed to kill, anything else defers to the base
class. -/
def container_send_signal (st : ContainerState) (env : ContainerEnv) (signum : Int) :
    SigResult × List SignalAction :=
  if signum = 0 then container_poll env
  else if signum = SIGKILL then container_kill st
  else
    base_send_signal
      { comm_port := st.comm_port, local_proc := st.local_proc, pgid := st.pgid }
      env.sig signum

/-- Modelled from the spec: the Local/SSH-remote process variant is not
under src (only its abstract base class is); per the spec its poll
delegates to the local process handle (or to liveness checks) and performs
no signal delivery, so its observable action trace is empty. -/
def local_variant_poll (pollResult : Option Int) : SigResult × List SignalAction :=
  (.ret pollResult, [])

/-- The provisioner fields read by shutdown_listener. -/
structure ShutdownState where
  comm_port : Int
  tunnel_processes : List (String × Nat)
  deriving DecidableEq, Repr

/-- The value of KernelChannel.COMMUNICATION. -/
def EG_COMM : String := "EG_COMM"

def lookupTunnel (m : List (String × Nat)) (k : String) : Option Nat :=
  (m.find? (fun kv => kv.1 == k)).map (fun kv => kv.2)

def removeTunnel (m : List (String × Nat)) (k : String) : List (String × Nat) :=
  m.filter (fun kv => !(kv.1 == k))

/-- Embeds RemoteProvisionerBase.shutdown_listener: when a comm port is
established, send the shutdown directive (every exception from the request
is swallowed, connection-refused silently and anything else with a logged
warning), then unconditionally terminate and drop the communication-channel
tunnel entry if one is tracked.  The listener outcome cannot change the
tunnel teardown. -/
def shutdown_listener (st : ShutdownState) (outcome : ListenerOutcome) :
    ShutdownState × List SignalAction :=
  if st.comm_port > 0 then
    match lookupTunnel st.tunnel_processes EG_COMM with
    | some proc =>
      ({ st with tunnel_processes := removeTunnel st.tunnel_processes EG_COMM },
       [.listenerShutdownRequest, .terminateTunnel EG_COMM proc])
    | none => (st, [.listenerShutdownRequest])
  else (st, [])

/-- Concrete signaling state for the C4 witness. -/
def sig_st_refused : SigState := { comm_port := 6000, local_proc := true, pgid := 42 }

def sig_env_refused : SigEnv :=
  { listener := .connRefused, hasKillpg := true, killpgOk := true, procSignalOk := true }

/-- Concrete signaling state for the C3 counterexample. -/
def sig_st_c3 : SigState := { comm_port := 5000, local_proc := true, pgid := 0 }

def sig_env_c3 : SigEnv :=
  { listener := .delivered, hasKillpg := true, killpgOk := true, procSignalOk := true }

/-- Concrete state for the C5 witness. -/
def shutdown_demo : ShutdownState :=
  { comm_port := 5353, tunnel_processes := [("SHELL", 3), (EG_COMM, 7)] }

/-- A connection payload / connection-info dictionary; none models an
absent key.  The launcher sends the ports, pid and pgid as integers. -/
structure ConnInfo where
  ip : Option String
  shell_port : Option Int
  iopub_port : Option Int
  stdin_port : Option Int
  hb_port : Option Int
  control_port : Option Int
  comm_port : Option Int
  pid : Option Int
  pgid : Option Int
  deriving DecidableEq, Repr

/-- The provisioner fields read and written by the confirmation engine and
the tunnel setup (base-class fields plus the container-variant ones). -/
structure ProvState where
  assigned_ip : Option String
  assigned_host : String
  comm_ip : Option String
  comm_port : Int
  tunnel_processes : List (String × Nat)
  tunneled_connect_info : Option ConnInfo
  connection_info : ConnInfo
  ip : Option String
  pid : Int
  pgid : Int
  local_proc : Bool
  lower_port : Int
  upper_port : Int
  container_name : Option String
  deriving DecidableEq, Repr

/-- Host environment for tunnel setup: the OS allocator state, whether
passwordless SSH to the remote host succeeds, the stream of child-process
handles produced by successive tunnel spawns (none models a spawn
exception), and which IPs count as local to this server. -/
structure TunnelEnv where
  os : OSState
  sshOk : Bool
  spawnResult : Nat → Option Nat
  spawnIdx : Nat
  ipIsLocal : Option String → Bool

/-- Assignment into the tunnel_processes dictionary: replace in place when
the channel is present, else append (Python dict insertion-order
semantics). -/
def setTunnel (m : List (String × Nat)) (k : String) (v : Nat) : List (String × Nat) :=
  if (m.find? (fun kv => kv.1 == k)).isSome then
    m.map (fun kv => if kv.1 == k then (k, v) else kv)
  else m ++ [(k, v)]

/-- The five ZMQ kernel channel names, in the order _tunnel_to_kernel zips
them with local and remote ports. -/
def kernelChannelsFive : List String := ["SHELL", "IOPUB", "STDIN", "HB", "CONTROL"]

/-- Embeds the loop of _tunnel_to_kernel over _create_ssh_tunnel: spawn one
child per (local port, remote port, channel) triple and record it under the
channel name; a spawn failure is re-raised as a RuntimeError. -/
def create_tunnels : List (Int × Int × String) → ProvState → TunnelEnv →
    Except PyError (ProvState × TunnelEnv)
  | [], st, env => .ok (st, env)
  | t :: rest, st, env =>
    match env.spawnResult env.spawnIdx with
    | none => .error (.runtimeErrorTunnelSpawn t.2.2)
    | some proc =>
      create_tunnels rest
        { st with tunnel_processes := setTunnel st.tunnel_processes t.2.2 proc }
        { env with spawnIdx := env.spawnIdx + 1 }

/-- The five remote channel ports of a payload, in tunnel order; the first
absent key raises KeyError as the tuple construction in the source would. -/
def fiveRemotePorts (cf : ConnInfo) : Except PyError (List Int) :=
  match cf.shell_port, cf.iopub_port, cf.stdin_port, cf.hb_port, cf.control_port with
  | some a, some b, some c, some d, some e => .ok [a, b, c, d, e]
  | none, _, _, _, _ => .error (.keyError "shell_port")
  | _, none, _, _, _ => .error (.keyError "iopub_port")
  | _, _, none, _, _ => .error (.keyError "stdin_port")
  | _, _, _, none, _ => .error (.keyError "hb_port")
  | _, _, _, _, none => .error (.keyError "control_port")

/-- Embeds _tunnel_to_kernel: select five local ports, read the five remote
channel ports and the remote ip from the payload, verify passwordless SSH,
then open one tunnel per channel in the order SHELL, IOPUB, STDIN, HB,
CONTROL and return the local ports. -/
def tunnel_to_kernel (st : ProvState) (env : TunnelEnv) (cf : ConnInfo) :
    Except PyError (List Int × ProvState × TunnelEnv) :=
  match select_ports st.lower_port st.upper_port 5 env.os with
  | .error e => .error e
  | .ok (lports, os1) =>
    match fiveRemotePorts cf with
    | .error e => .error e
    | .ok rports =>
      match cf.ip with
      | none => .error (.keyError "ip")
      | some _remote_ip =>
        if env.sshOk = false then .error .permissionErrorSsh
        else
          match create_tunnels (lports.zip (rports.zip kernelChannelsFive)) st
              { env with os := os1 } with
          | .error e => .error e
          | .ok (st1, env1) => .ok (lports, st1, env1)

/-- Embeds _tunnel_to_port for the communication channel: select one local
port, open a single tunnel (passwordless SSH assumed validated), return the
local port. -/
def tunnel_to_port (channel : String) (remote_port : Int) (st : ProvState)
    (env : TunnelEnv) : Except PyError (Int × ProvState × TunnelEnv) :=
  match select_ports st.lower_port st.upper_port 1 env.os with
  | .error e => .error e
  | .ok ([lp], os1) =>
    match create_tunnels [(lp, remote_port, channel)] st { env with os := os1 } with
    | .error e => .error e
    | .ok (st1, env1) => .ok (lp, st1, env1)
  | .ok (_, _) => .error (.indexError "local_port")

/-- Python truthiness of an optional integer (None and 0 are falsy). -/
def intTruthy : Option Int → Bool
  | none => false
  | some v => !(v == 0)

def apply_pid (st : ProvState) (ci : ConnInfo) : ProvState :=
  if intTruthy ci.pid then { st with pid := ci.pid.getD 0 } else st

def apply_pgid (st : ProvState) (ci : ConnInfo) : ProvState :=
  if intTruthy ci.pgid then { st with pgid := ci.pgid.getD 0 } else st

def apply_ip_switch (env : TunnelEnv) (st : ProvState) (ci : ConnInfo) : ProvState :=
  if intTruthy ci.pid || intTruthy ci.pgid then
    if env.ipIsLocal st.assigned_ip then { st with ip := st.assigned_ip }
    else { st with ip := st.assigned_ip, local_proc := false }
  else st

/-- Embeds _extract_pid_info: pop pid and pgid from the payload; a truthy
value updates the corresponding field, and when either was truthy the ip is
switched to the assigned ip and, when that ip is not local, the local
process handle is dropped. -/
def extract_pid_info (env : TunnelEnv) (st : ProvState) (ci : ConnInfo) :
    ProvState × ConnInfo :=
  (apply_ip_switch env (apply_pgid (apply_pid st ci) ci) ci,
   { ci with pid := none, pgid := none })

/-- dict.update semantics for one key: a key present in the new payload
overwrites, an absent key keeps the old value. -/
def updField {α : Type} (new old : Option α) : Option α :=
  match new with | some v => some v | none => old

/-- dict.update of connection_info with the processed payload. -/
def mergeConnInfo (old new : ConnInfo) : ConnInfo :=
  { ip := updField new.ip old.ip,
    shell_port := updField new.shell_port old.shell_port,
    iopub_port := updField new.iopub_port old.iopub_port,
    stdin_port := updField new.stdin_port old.stdin_port,
    hb_port := updField new.hb_port old.hb_port,
    control_port := updField new.control_port old.control_port,
    comm_port := updField new.comm_port old.comm_port,
    pid := updField new.pid old.pid,
    pgid := updField new.pgid old.pgid }

/-- Python truthiness of the payload dictionary: falsy iff every key is
absent. -/
def connInfoEmpty (ci : ConnInfo) : Bool :=
  ci.ip.isNone && ci.shell_port.isNone && ci.iopub_port.isNone &&
  ci.stdin_port.isNone && ci.hb_port.isNone && ci.control_port.isNone &&
  ci.comm_port.isNone && ci.pid.isNone && ci.pgid.isNone

/-- Embeds _update_connection: reject a falsy payload, extract pid info,
then merge the payload into connection_info. -/
def update_connection (env : TunnelEnv) (st : ProvState) (ci : ConnInfo) :
    Except PyError ProvState :=
  if connInfoEmpty ci then .error .runtimeErrorNullConnInfo
  else
    match extract_pid_info env st ci with
    | (st1, ci1) =>
      .ok { st1 with connection_info := mergeConnInfo st1.connection_info ci1 }

/-- The payload after tunnel setup: ip rewritten to 127.0.0.1 and the five
channel ports replaced by the local tunnel ports. -/
def tunneledPayload (ci : ConnInfo) (p0 p1 p2 p3 p4 : Int) : ConnInfo :=
  { ci with
    ip := some "127.0.0.1",
    shell_port := some p0,
    iopub_port := some p1,
    stdin_port := some p2,
    hb_port := some p3,
    control_port := some p4 }

/-- The part of _setup_connection_info after the payload ip has been set to
the assigned ip.  With tunneling enabled: snapshot the untunneled payload,
open the five kernel tunnels, rewrite ip to 127.0.0.1 and the five ports to
the local tunnel ports, then tunnel the optional communication port (the
comm ip is read from the payload ip just rewritten to 127.0.0.1, and the
remote comm port is the one the payload carried); without tunneling, just
record the communication endpoint when present.  Both paths finish in
_update_connection. -/
def setup_connection_info_core (tunneling : Bool) (st : ProvState) (env : TunnelEnv)
    (ci : ConnInfo) : Except PyError (ProvState × TunnelEnv) :=
  if tunneling then
    match tunnel_to_kernel { st with tunneled_connect_info := some ci } env ci with
    | .error e => .error e
    | .ok (lports, st1, env1) =>
      match lports with
      | [p0, p1, p2, p3, p4] =>
        match ci.comm_port with
        | some cp =>
          match tunnel_to_port "EG_COMM" cp
              { st1 with comm_ip := some "127.0.0.1" } env1 with
          | .error e => .error e
          | .ok (lcp, st2, env2) =>
            match update_connection env2 { st2 with comm_port := lcp }
                { tunneledPayload ci p0 p1 p2 p3 p4 with comm_port := some lcp } with
            | .error e => .error e
            | .ok st3 => .ok (st3, env2)
        | none =>
          match update_connection env1 st1 (tunneledPayload ci p0 p1 p2 p3 p4) with
          | .error e => .error e
          | .ok st2 => .ok (st2, env1)
      | _ => .error (.indexError "tunnel_ports")
  else
    match ci.comm_port with
    | some cp =>
      match update_connection env { st with comm_ip := ci.ip, comm_port := cp } ci with
      | .error e => .error e
      | .ok st1 => .ok (st1, env)
    | none =>
      match update_connection env st ci with
      | .error e => .error e
      | .ok st1 => .ok (st1, env)

/-- Embeds _setup_connection_info: first the payload ip is set to the
assigned ip, then the tunneling-dependent processing runs. -/
def setup_connection_info (tunneling : Bool) (st : ProvState) (env : TunnelEnv)
    (ci0 : ConnInfo) : Except PyError (ProvState × TunnelEnv) :=
  setup_connection_info_core tunneling st env { ci0 with ip := st.assigned_ip }

/-- The five channel port fields of a connection-info record, in channel
order. -/
def fivePorts (c : ConnInfo) : List (Option Int) :=
  [c.shell_port, c.iopub_port, c.stdin_port, c.hb_port, c.control_port]

/-- The empty connection-info record. -/
def conn_info_empty : ConnInfo :=
  { ip := none, shell_port := none, iopub_port := none, stdin_port := none,
    hb_port := none, control_port := none, comm_port := none, pid := none,
    pgid := none }

/-- Concrete provisioner state for the C1 witness. -/
def prov_demo : ProvState :=
  { assigned_ip := some "10.0.0.5", assigned_host := "node1",
    comm_ip := none, comm_port := 0, tunnel_processes := [],
    tunneled_connect_info := none, connection_info := conn_info_empty,
    ip := some "192.168.1.1", pid := 101, pgid := 101, local_proc := true,
    lower_port := 2000, upper_port := 3000, container_name := some "pod-1" }

/-- Concrete payload for the C1 witness: the five channel ports and the
remote ip, no communication port. -/
def payload_demo : ConnInfo :=
  { ip := some "10.0.0.5", shell_port := some 4301, iopub_port := some 4302,
    stdin_port := some 4303, hb_port := some 4304, control_port := some 4305,
    comm_port := none, pid := none, pgid := none }

/-- Concrete tunnel environment for the C1 witness. -/
def tunnel_env_demo : TunnelEnv :=
  { os := os_demo, sshOk := true, spawnResult := fun k => some (900 + k),
    spawnIdx := 0, ipIsLocal := fun _ => false }

def setup_demo : Except PyError (ProvState × TunnelEnv) :=
  setup_connection_info true prov_demo tunnel_env_demo payload_demo

def setup_demo_st : ProvState :=
  match setup_demo with | .ok (s, _) => s | .error _ => prov_demo

def setup_demo_env : TunnelEnv :=
  match setup_demo with | .ok (_, e) => e | .error _ => tunnel_env_demo

/-- Outcome of one get_connection_info attempt on the response manager: a
timeout-type exception, a decrypted connection payload, or any other
exception. -/
inductive RecvOut where
  | timeoutErr
  | payload (ci : ConnInfo)
  | fatalErr

/-- Static configuration of one confirmation run.  Times are integral
milliseconds: get_current_time counts milliseconds since the epoch and
get_time_diff divides the difference by 1000 for the timeout comparison. -/
structure ConfirmCfg where
  launchTimeoutMs : Nat
  pollMs : Nat
  tunnelingEnabled : Bool

/-- Environment of one confirmation run.
Modelled from the spec: get_container_status is abstract in src (concrete
runtime subclasses poll the container runtime and assign host/ip, which is
represented here by running from a state whose assigned_host is already
set); status gives the string it returns at each iteration.  localPoll
gives the local_proc.poll() result at each detect_launch_failure call. -/
structure ConfirmEnv where
  status : Nat → Option String
  recv : Nat → RecvOut
  localPoll : Nat → Option Int

/-- Mutable world of one confirmation run: the provisioner state, the
tunnel environment, the clock in milliseconds since start_time, the number
of kill() attempts, the consumption indices of the receive and poll
streams, and the iteration counter. -/
structure CWorld where
  st : ProvState
  tenv : TunnelEnv
  clockMs : Nat
  kills : Nat
  recvIdx : Nat
  pollIdx : Nat
  iter : Nat

/-- One step of the loop: a normal value or a raised exception, each with
the world at that point. -/
inductive CResult (α : Type) where
  | ok (a : α) (w : CWorld)
  | raise (e : PyError) (w : CWorld)

/-- A kill() attempt as the confirmation loop observes it: the attempt is
counted (the container variant then terminates container resources when a
container name is assigned). -/
def killW (w : CWorld) : CWorld := { w with kills := w.kills + 1 }

/-- Embeds handle_launch_timeout: sleep one poll interval, then, when the
elapsed time exceeds the launch timeout, kill() once and raise a
TimeoutError. -/
def handle_launch_timeout (cfg : ConfirmCfg) (w : CWorld) : CResult Unit :=
  if cfg.launchTimeoutMs < w.clockMs + cfg.pollMs then
    .raise .timeoutErrorLaunch (killW { w with clockMs := w.clockMs + cfg.pollMs })
  else .ok () { w with clockMs := w.clockMs + cfg.pollMs }

/-- Embeds receive_connection_info: a timeout-type exception only loops
back; a payload runs _setup_connection_info; any other exception, or an
exception escaping the setup (none of which is a timeout type), triggers a
kill() and a RuntimeError. -/
def receive_connection_info (cfg : ConfirmCfg) (env : ConfirmEnv) (w : CWorld) :
    CResult Bool :=
  match env.recv w.recvIdx with
  | .timeoutErr => .ok false { w with recvIdx := w.recvIdx + 1 }
  | .fatalErr => .raise .runtimeErrorRecvFatal (killW { w with recvIdx := w.recvIdx + 1 })
  | .payload ci =>
    match setup_connection_info cfg.tunnelingEnabled w.st w.tenv ci with
    | .ok (st1, tenv1) =>
      .ok true { w with st := st1, tenv := tenv1, recvIdx := w.recvIdx + 1 }
    | .error _ =>
      .raise .runtimeErrorRecvFatal (killW { w with recvIdx := w.recvIdx + 1 })

/-- Embeds detect_launch_failure: when a local process exists and its poll
result is a strictly positive exit code, wait on it, drop the handle and
raise the launch-fault RuntimeError; in every other case (no handle, poll
None, exit code 0, or a negative signal-termination code) return so the
loop continues. -/
def detect_launch_failure (env : ConfirmEnv) (w : CWorld) : CResult Unit :=
  if w.st.local_proc then
    match env.localPoll w.pollIdx with
    | some rc =>
      if 0 < rc then
        .raise .runtimeErrorLaunchFault
          { w with st := { w.st with local_proc := false }, pollIdx := w.pollIdx + 1 }
      else .ok () { w with pollIdx := w.pollIdx + 1 }
    | none => .ok () { w with pollIdx := w.pollIdx + 1 }
  else .ok () w

/-- Terminal outcome of a confirmation run.  fuelOut is the artifact of the
bounded unrolling; the top-level entry supplies enough fuel that the
timeout provably fires first. -/
inductive ConfirmOutcome where
  | confirmed (w : CWorld)
  | raised (e : PyError) (w : CWorld)
  | fuelOut (w : CWorld)

/-- Embeds the loop body of the container confirm_remote_startup.  Each
iteration: bump the iteration counter, run handle_launch_timeout, query the
container status; a truthy status with a non-empty assigned host attempts
to receive connection info and then clears pid/pgid; a falsy status runs
detect_launch_failure. -/
def confirm_go (cfg : ConfirmCfg) (env : ConfirmEnv) : Nat → CWorld → ConfirmOutcome
  | 0, w => .fuelOut w
  | fuel + 1, w =>
    match handle_launch_timeout cfg { w with iter := w.iter + 1 } with
    | .raise e w1 => .raised e w1
    | .ok _ w1 =>
      if pyTruthyStr (env.status w1.iter) then
        if w1.st.assigned_host ≠ "" then
          match receive_connection_info cfg env w1 with
          | .raise e w2 => .raised e w2
          | .ok ready w2 =>
            if ready then
              .confirmed { w2 with st := { w2.st with pid := 0, pgid := 0 } }
            else
              confirm_go cfg env fuel { w2 with st := { w2.st with pid := 0, pgid := 0 } }
        else confirm_go cfg env fuel w1
      else
        match detect_launch_failure env w1 with
        | .raise e w2 => .raised e w2
        | .ok _ w2 => confirm_go cfg env fuel w2

/-- Embeds the container confirm_remote_startup: reset the clock (set
start_time) and run the loop; launchTimeoutMs / pollMs + 1 iterations are
always enough for the timeout to fire. -/
def confirm_remote_startup (cfg : ConfirmCfg) (env : ConfirmEnv) (w : CWorld) :
    ConfirmOutcome :=
  confirm_go cfg env (cfg.launchTimeoutMs / cfg.pollMs + 1)
    { w with clockMs := 0, iter := 0 }

/-- Concrete configuration for the loop witnesses: 1 second timeout, half a
second poll interval. -/
def cfg_demo : ConfirmCfg :=
  { launchTimeoutMs := 1000, pollMs := 500, tunnelingEnabled := false }

/-- Concrete environment for the C2 witness: the container reports an
active status and connection info never arrives. -/
def cenv_demo : ConfirmEnv :=
  { status := fun _ => some "Running", recv := fun _ => .timeoutErr,
    localPoll := fun _ => none }

def cworld_demo : CWorld :=
  { st := prov_demo, tenv := tunnel_env_demo, clockMs := 0, kills := 0,
    recvIdx := 0, pollIdx := 0, iter := 0 }

def confirm_demo : ConfirmOutcome := confirm_remote_startup cfg_demo cenv_demo cworld_demo

def confirm_demo_world : CWorld :=
  match confirm_demo with
  | .confirmed w => w
  | .raised _ w => w
  | .fuelOut w => w

/-- Concrete environment for the C10 witness: the status query stays falsy
and the local process was terminated by a signal (poll returns -9). -/
def cenv_demo2 : ConfirmEnv :=
  { status := fun _ => none, recv := fun _ => .timeoutErr,
    localPoll := fun _ => some (-9) }

def confirm_demo2 : ConfirmOutcome := confirm_remote_startup cfg_demo cenv_demo2 cworld_demo

def confirm_demo2_world : CWorld :=
  match confirm_demo2 with
  | .confirmed w => w
  | .raised _ w => w
  | .fuelOut w => w

/- ### Helper lemmas about the allocator -/

lemma get_candidate_port_state (lower upper : Int) (os : OSState) :
    (get_candidate_port lower upper os).2.bound = os.bound ∧
    (get_candidate_port lower upper os).2.busy = os.busy := by
  unfold get_candidate_port
  split <;> simp

lemma bind_port_some {c p : Int} {os os' : OSState}
    (h : bind_port c os = (some p, os')) :
    p ∉ os.bound ∧ 0 < p ∧ os'.bound = p :: os.bound ∧ os'.busy = os.busy := by
  unfold bind_port at h
  split at h
  · split at h
    · rename_i hcond
      have h1 : some (os.eph os.ephIdx) = some p := congrArg Prod.fst h
      have h2 := congrArg Prod.snd h
      simp at h1 h2
      subst h1
      refine ⟨hcond.2.1, hcond.1, ?_, ?_⟩ <;> simp [← h2]
    · simp at h
  · split at h
    · rename_i hcond
      have h1 : some c = some p := congrArg Prod.fst h
      have h2 := congrArg Prod.snd h
      simp at h1 h2
      subst h1
      refine ⟨hcond.2.1, hcond.1, ?_, ?_⟩ <;> simp [← h2]
    · simp at h

lemma bind_port_some_eq {c p : Int} {os os' : OSState} (hc : c ≠ 0)
    (h : bind_port c os = (some p, os')) : p = c := by
  unfold bind_port at h
  rw [if_neg hc] at h
  split at h
  · have h1 : some c = some p := congrArg Prod.fst h
    simp at h1
    omega
  · simp at h

lemma bind_port_none {c : Int} {os os' : OSState}
    (h : bind_port c os = (none, os')) :
    os'.bound = os.bound ∧ os'.busy = os.busy := by
  unfold bind_port at h
  split at h
  · split at h
    · simp at h
    · have h2 := congrArg Prod.snd h
      simp at h2
      simp [← h2]
  · split at h
    · simp at h
    · have h2 := congrArg Prod.snd h
      simp at h2
      simp [← h2]

lemma select_socket_go_ok {lower upper : Int} {fuel : Nat} {os os' : OSState} {p : Int}
    (h : select_socket_go lower upper fuel os = .ok (p, os')) :
    p ∉ os.bound ∧ 0 < p ∧ os'.bound = p :: os.bound ∧ os'.busy = os.busy := by
  induction fuel generalizing os with
  | zero =>
    unfold select_socket_go at h
    rcases hbp : bind_port (get_candidate_port lower upper os).1
        (get_candidate_port lower upper os).2 with ⟨op, os2⟩
    rw [hbp] at h
    rcases op with _ | q
    · simp at h
    · simp at h
      obtain ⟨hq, hos2⟩ := h
      subst hq; subst hos2
      obtain ⟨hgb, hgbusy⟩ := get_candidate_port_state lower upper os
      obtain ⟨hnb, hpos, hb, hbusy⟩ := bind_port_some hbp
      rw [hgb] at hnb hb
      rw [hgbusy] at hbusy
      exact ⟨hnb, hpos, hb, hbusy⟩
  | succ f ih =>
    unfold select_socket_go at h
    rcases hbp : bind_port (get_candidate_port lower upper os).1
        (get_candidate_port lower upper os).2 with ⟨op, os2⟩
    rw [hbp] at h
    rcases op with _ | q
    · obtain ⟨hgb, hgbusy⟩ := get_candidate_port_state lower upper os
      obtain ⟨hb2, hbusy2⟩ := bind_port_none hbp
      have hrec := ih h
      rw [hb2, hgb] at hrec
      rw [hbusy2, hgbusy] at hrec
      exact hrec
    · simp at h
      obtain ⟨hq, hos2⟩ := h
      subst hq; subst hos2
      obtain ⟨hgb, hgbusy⟩ := get_candidate_port_state lower upper os
      obtain ⟨hnb, hpos, hb, hbusy⟩ := bind_port_some hbp
      rw [hgb] at hnb hb
      rw [hgbusy] at hbusy
      exact ⟨hnb, hpos, hb, hbusy⟩

lemma get_candidate_port_range {lower upper : Int} (hlt : lower < upper) (os : OSState) :
    lower ≤ (get_candidate_port lower upper os).1 ∧
    (get_candidate_port lower upper os).1 ≤ upper := by
  unfold get_candidate_port
  have hne : ¬ (upper - lower = 0) := by omega
  rw [if_neg hne]
  have hnz : upper - lower + 1 ≠ 0 := by omega
  have h1 := Int.emod_nonneg ((os.rand os.randIdx : Int)) hnz
  have h2 := Int.emod_lt_of_pos ((os.rand os.randIdx : Int))
    (show (0 : Int) < upper - lower + 1 by omega)
  constructor <;> simp <;> omega

lemma select_socket_go_range {lower upper : Int} (h0 : 0 < lower) (hlt : lower < upper)
    {fuel : Nat} {os os' : OSState} {p : Int}
    (h : select_socket_go lower upper fuel os = .ok (p, os')) :
    lower ≤ p ∧ p ≤ upper := by
  induction fuel generalizing os with
  | zero =>
    unfold select_socket_go at h
    rcases hbp : bind_port (get_candidate_port lower upper os).1
        (get_candidate_port lower upper os).2 with ⟨op, os2⟩
    rw [hbp] at h
    rcases op with _ | q
    · simp at h
    · simp at h
      obtain ⟨hq, _⟩ := h
      subst hq
      obtain ⟨hc1, hc2⟩ := get_candidate_port_range hlt os
      have hcne : (get_candidate_port lower upper os).1 ≠ 0 := by omega
      have := bind_port_some_eq hcne hbp
      omega
  | succ f ih =>
    unfold select_socket_go at h
    rcases hbp : bind_port (get_candidate_port lower upper os).1
        (get_candidate_port lower upper os).2 with ⟨op, os2⟩
    rw [hbp] at h
    rcases op with _ | q
    · exact ih h
    · simp at h
      obtain ⟨hq, _⟩ := h
      subst hq
      obtain ⟨hc1, hc2⟩ := get_candidate_port_range hlt os
      have hcne : (get_candidate_port lower upper os).1 ≠ 0 := by omega
      have := bind_port_some_eq hcne hbp
      omega

lemma select_ports_go_ok {lower upper : Int} {n : Nat} {os os' : OSState} {ps : List Int}
    (h : select_ports_go lower upper n os = .ok (ps, os')) :
    ps.length = n ∧ ps.Nodup ∧ (∀ p ∈ ps, p ∉ os.bound) ∧
    os'.bound = ps.reverse ++ os.bound ∧ os'.busy = os.busy := by
  induction n generalizing os ps with
  | zero =>
    unfold select_ports_go at h
    simp at h
    obtain ⟨h1, h2⟩ := h
    subst h1; subst h2
    simp
  | succ n ih =>
    unfold select_ports_go at h
    split at h
    · simp at h
    · rename_i p os1 hs
      split at h
      · simp at h
      · rename_i ps1 os2 hg
        simp at h
        obtain ⟨hps, hos⟩ := h
        subst hps; subst hos
        obtain ⟨hnb, hpos, hb1, hbusy1⟩ := select_socket_go_ok hs
        obtain ⟨hlen, hnd, hfresh, hb2, hbusy2⟩ := ih hg
        rw [hb1] at hfresh hb2
        refine ⟨by simp [hlen], ?_, ?_, ?_, ?_⟩
        · refine List.nodup_cons.mpr ⟨?_, hnd⟩
          intro hmem
          have := hfresh p hmem
          simp at this
        · intro q hq
          rcases List.mem_cons.mp hq with hq1 | hq2
          · subst hq1; exact hnb
          · have := hfresh q hq2
            intro hcon
            exact this (List.mem_cons_of_mem _ hcon)
        · rw [hb2]; simp
        · rw [hbusy2, hbusy1]

lemma select_ports_go_range {lower upper : Int} (h0 : 0 < lower) (hlt : lower < upper)
    {n : Nat} {os os' : OSState} {ps : List Int}
    (h : select_ports_go lower upper n os = .ok (ps, os')) :
    ∀ p ∈ ps, lower ≤ p ∧ p ≤ upper := by
  induction n generalizing os ps with
  | zero =>
    unfold select_ports_go at h
    simp at h
    obtain ⟨h1, _⟩ := h
    subst h1
    simp
  | succ n ih =>
    unfold select_ports_go at h
    split at h
    · simp at h
    · rename_i p os1 hs
      split at h
      · simp at h
      · rename_i ps1 os2 hg
        simp at h
        obtain ⟨hps, hos⟩ := h
        subst hps; subst hos
        intro q hq
        rcases List.mem_cons.mp hq with hq1 | hq2
        · subst hq1
          exact select_socket_go_range h0 hlt hs
        · exact ih hg q hq2

/- ### Claim theorems: port-range validation and port allocation -/

/-- C6 counterexample: the range "2000..2000" has width 0, which is less
than 1000, yet construction succeeds: the source skips every check when the
width is exactly zero. -/
theorem validate_width_zero_ok :
    validate_port_range "2000..2000" = .ok (2000, 2000) := by decide

/-- C6 (amended): for every configured port range parsing to bounds (L, U)
with nonzero width, construction fails whenever the width is under 1000 or
either bound lies outside [1024, 65535]. -/
theorem validate_port_range_rejects (s : String) (L U : Int)
    (hp : parsesTo s L U) (hne : U - L ≠ 0)
    (hbad : U - L < 1000 ∨ L < 1024 ∨ 65535 < L ∨ U < 1024 ∨ 65535 < U) :
    exceptIsError (validate_port_range s) = true := by
  obtain ⟨h1, h2⟩ := hp
  unfold validate_port_range
  rw [h1]
  rcases hidx : (splitOnDots s)[1]? with _ | up_str
  · simp [exceptIsError]
  · rw [hidx] at h2
    simp at h2
    dsimp only
    rw [h2]
    dsimp only
    rw [if_pos hne]
    split
    · simp [exceptIsError]
    · split
      · simp [exceptIsError]
      · split
        · simp [exceptIsError]
        · rename_i hsz hlo hhi
          exfalso
          simp [min_port_range_size] at hsz
          push_neg at hlo hhi
          omega

/-- Witness for C6 (amended) at the concrete range "2000..2500" of width
500. -/
theorem validate_port_range_rejects_witness :
    exceptIsError (validate_port_range "2000..2500") = true :=
  validate_port_range_rejects "2000..2500" 2000 2500 (by decide) (by decide)
    (by decide)

/-- C7 counterexample: with an empty port_range string, the split yields a
single empty field, int() of it raises ValueError, and that exception is not
caught (the handler only covers IndexError), so construction fails instead
of succeeding with the unconstrained range (0, 0). -/
theorem validate_empty_string_fails :
    validate_port_range "" = .error (.valueErrorIntParse "") := by decide

/-- C7 (amended): with the unconstrained default range string "0..0",
validation succeeds and yields (0, 0), so construction does not fail. -/
theorem validate_unconstrained_ok :
    validate_port_range "0..0" = .ok (0, 0) := by decide

/-- C8: for every valid configured range [L, U] with 1024 <= L, U <= 65535
and width at least 1000, whenever select_ports returns n ports they are
pairwise distinct and each lies inside [L, U]. -/
theorem select_ports_spec (L U : Int) (n : Nat) (os : OSState) (ps : List Int)
    (os' : OSState)
    (hL : 1024 ≤ L) (hU : U ≤ 65535) (hw : 1000 ≤ U - L)
    (h : select_ports L U n os = .ok (ps, os')) :
    ps.length = n ∧ ps.Nodup ∧ ∀ p ∈ ps, L ≤ p ∧ p ≤ U := by
  unfold select_ports at h
  rcases hg : select_ports_go L U n os with e | ⟨ps1, os1⟩
  · rw [hg] at h; simp at h
  · rw [hg] at h
    simp at h
    obtain ⟨hps, _⟩ := h
    subst hps
    obtain ⟨hlen, hnd, _, _, _⟩ := select_ports_go_ok hg
    have hrange := select_ports_go_range (by omega) (by omega) hg
    exact ⟨hlen, hnd, hrange⟩

/-- Witness for C8 at the concrete range 2000..3000, selecting three
ports. -/
theorem select_ports_spec_witness :
    sel_demo_ports.length = 3 ∧ sel_demo_ports.Nodup := by
  have h := select_ports_spec 2000 3000 3 os_demo sel_demo_ports sel_demo_os
    (by decide) (by decide) (by decide) rfl
  exact ⟨h.1, h.2.1⟩

/-- C9: the port-selection retry loop always terminates; in an environment
where every bind attempt fails (every port busy), select_socket raises the
fatal port-range-exhausted error after exhausting its bounded retries
instead of retrying indefinitely. -/
theorem select_socket_exhaustion (lower upper : Int) (os : OSState)
    (hb : ∀ q, os.busy q = true) :
    select_socket lower upper os = .error .runtimeErrorPortExhausted := by
  unfold select_socket
  generalize max_port_range_retries = fuel
  induction fuel generalizing os with
  | zero =>
    unfold select_socket_go
    rcases hbp : bind_port (get_candidate_port lower upper os).1
        (get_candidate_port lower upper os).2 with ⟨op, os2⟩
    rcases op with _ | q
    · simp
    · exfalso
      obtain ⟨_, hgbusy⟩ := get_candidate_port_state lower upper os
      obtain ⟨_, _, _, hbusy⟩ := bind_port_some hbp
      unfold bind_port at hbp
      split at hbp
      · split at hbp
        · rename_i hcond
          rw [hgbusy] at hcond
          rw [hb _] at hcond
          simp at hcond
        · simp at hbp
      · split at hbp
        · rename_i hcond
          rw [hgbusy] at hcond
          rw [hb _] at hcond
          simp at hcond
        · simp at hbp
  | succ f ih =>
    unfold select_socket_go
    rcases hbp : bind_port (get_candidate_port lower upper os).1
        (get_candidate_port lower upper os).2 with ⟨op, os2⟩
    rcases op with _ | q
    · obtain ⟨_, hgbusy⟩ := get_candidate_port_state lower upper os
      obtain ⟨_, hbusy2⟩ := bind_port_none hbp
      refine ih os2 ?_
      intro q
      rw [hbusy2, hgbusy]
      exact hb q
    · exfalso
      obtain ⟨_, hgbusy⟩ := get_candidate_port_state lower upper os
      unfold bind_port at hbp
      split at hbp
      · split at hbp
        · rename_i hcond
          rw [hgbusy] at hcond
          rw [hb _] at hcond
          simp at hcond
        · simp at hbp
      · split at hbp
        · rename_i hcond
          rw [hgbusy] at hcond
          rw [hb _] at hcond
          simp at hcond
        · simp at hbp

/-- Witness for C9 in the concrete all-busy environment. -/
theorem select_socket_exhaustion_witness :
    select_socket 2000 3000 os_busy_demo = .error .runtimeErrorPortExhausted :=
  select_socket_exhaustion 2000 3000 os_busy_demo (fun _ => rfl)

/- ### Claim theorems: signal dispatch and shutdown -/

lemma lookupTunnel_removeTunnel (m : List (String × Nat)) (k : String) :
    lookupTunnel (removeTunnel m k) k = none := by
  unfold lookupTunnel removeTunnel
  rw [Option.map_eq_none']
  rw [List.find?_eq_none]
  intro kv hkv
  have h := List.of_mem_filter hkv
  simp at h ⊢
  exact h

/-- C3 counterexample: at a state with an established comm port and a
reachable listener, the base-class send_signal with signum 0 sends the
signal request through the listener, whereas the Local/SSH-remote variant
poll performs no signal delivery, so the two are not equivalent: the base
class forwards the raw signal instead of redefining signum 0 as poll. -/
theorem base_send_signal_zero_not_poll :
    base_send_signal sig_st_c3 sig_env_c3 0 ≠ local_variant_poll (some 0) := by
  decide

/-- C3 (amended): for the Container variant, send_signal(0) is equivalent
to calling poll() and send_signal(SIGKILL) is equivalent to calling kill();
the base class used by the Local/SSH-remote variant does not redefine
either and forwards the signal through its delivery tiers. -/
theorem container_send_signal_equiv (st : ContainerState) (env : ContainerEnv) :
    container_send_signal st env 0 = container_poll env ∧
    container_send_signal st env SIGKILL = container_kill st := by
  constructor
  · simp [container_send_signal]
  · simp [container_send_signal, SIGKILL]

/-- C4: when comm_port > 0 and the TCP connection to the in-band listener
is refused, the signal is treated as delivered: only the listener request
is attempted, there is no fall-through to process-group or direct-process
signaling, and the call returns normally with no error surfaced. -/
theorem send_signal_conn_refused (st : SigState) (env : SigEnv) (signum : Int)
    (hport : 0 < st.comm_port) (href : env.listener = .connRefused) :
    base_send_signal st env signum = (.ret none, [.listenerRequest signum]) := by
  unfold base_send_signal send_signal_via_listener
  rw [if_pos hport, href]

/-- Witness for C4 at a concrete state with an established comm port and a
refused connection. -/
theorem send_signal_conn_refused_witness :
    base_send_signal sig_st_refused sig_env_refused 15 =
      (.ret none, [.listenerRequest 15]) :=
  send_signal_conn_refused sig_st_refused sig_env_refused 15 (by decide) rfl

/-- C5: shutdown_listener terminates the communication-channel tunnel
process and removes its entry whenever one is tracked (comm_port > 0 being
the invariant of every reachable state that tracks such an entry), for
every listener outcome, including a connection-refused shutdown request. -/
theorem shutdown_listener_removes_comm_tunnel (st : ShutdownState)
    (outcome : ListenerOutcome) (proc : Nat)
    (hport : 0 < st.comm_port)
    (hentry : lookupTunnel st.tunnel_processes EG_COMM = some proc) :
    SignalAction.terminateTunnel EG_COMM proc ∈ (shutdown_listener st outcome).2 ∧
    lookupTunnel (shutdown_listener st outcome).1.tunnel_processes EG_COMM = none := by
  unfold shutdown_listener
  rw [if_pos hport, hentry]
  constructor
  · simp
  · simp [lookupTunnel_removeTunnel]

/-- Witness for C5 at a concrete state, with the shutdown request itself
failing with connection-refused. -/
theorem shutdown_listener_removes_comm_tunnel_witness :
    SignalAction.terminateTunnel EG_COMM 7 ∈
      (shutdown_listener shutdown_demo .connRefused).2 ∧
    lookupTunnel (shutdown_listener shutdown_demo .connRefused).1.tunnel_processes
      EG_COMM = none :=
  shutdown_listener_removes_comm_tunnel shutdown_demo .connRefused 7 (by decide)
    (by decide)

/- ### Claim theorems: connection setup under tunneling -/

lemma setTunnel_fresh {m : List (String × Nat)} {k : String} {v : Nat}
    (h : m.find? (fun kv => kv.1 == k) = none) :
    setTunnel m k v = m ++ [(k, v)] := by
  unfold setTunnel
  rw [h]
  simp

lemma find?_key_append_none {m : List (String × Nat)} {k kq : String} {v : Nat}
    (hm : m.find? (fun kv => kv.1 == kq) = none) (hne : ¬ (k = kq)) :
    (m ++ [(k, v)]).find? (fun kv => kv.1 == kq) = none := by
  induction m with
  | nil =>
    simp only [List.nil_append, List.find?]
    have hk : (k == kq) = false := by
      simp only [beq_eq_false_iff_ne, ne_eq]
      exact hne
    rw [hk]
  | cons x xs ih =>
    simp only [List.cons_append, List.find?] at hm ⊢
    cases hpa : (x.1 == kq)
    · rw [hpa] at hm
      dsimp only at hm ⊢
      exact ih hm
    · rw [hpa] at hm
      simp at hm

lemma create_tunnels_ok {ts : List (Int × Int × String)} {st st' : ProvState}
    {env env' : TunnelEnv}
    (hnd : (ts.map (fun t => t.2.2)).Nodup)
    (hfresh : ∀ t ∈ ts, st.tunnel_processes.find? (fun kv => kv.1 == t.2.2) = none)
    (h : create_tunnels ts st env = .ok (st', env')) :
    st'.tunnel_processes.map Prod.fst =
      st.tunnel_processes.map Prod.fst ++ ts.map (fun t => t.2.2) ∧
    st'.connection_info = st.connection_info := by
  induction ts generalizing st env with
  | nil =>
    unfold create_tunnels at h
    simp at h
    obtain ⟨h1, _⟩ := h
    subst h1
    simp
  | cons t rest ih =>
    unfold create_tunnels at h
    split at h
    · simp at h
    · rename_i proc hspawn
      have hfr : st.tunnel_processes.find? (fun kv => kv.1 == t.2.2) = none :=
        hfresh t (List.mem_cons_self t rest)
      rw [setTunnel_fresh hfr] at h
      rw [List.map_cons, List.nodup_cons] at hnd
      obtain ⟨hni, hnd2⟩ := hnd
      have hfresh2 : ∀ u ∈ rest,
          (st.tunnel_processes ++ [(t.2.2, proc)]).find?
            (fun kv => kv.1 == u.2.2) = none := by
        intro u hu
        refine find?_key_append_none (hfresh u (List.mem_cons_of_mem t hu)) ?_
        intro heq
        exact hni (heq ▸ List.mem_map_of_mem (fun t => t.2.2) hu)
      obtain ⟨h1, h2⟩ := ih hnd2 hfresh2 h
      constructor
      · rw [h1]
        simp
      · exact h2

lemma zip3_channels_map {a b : List Int} {c : List String}
    (ha : a.length = c.length) (hb : b.length = c.length) :
    ((a.zip (b.zip c)).map (fun t => t.2.2)) = c := by
  induction c generalizing a b with
  | nil => simp
  | cons x xs ih =>
    cases a with
    | nil => simp at ha
    | cons a0 as =>
      cases b with
      | nil => simp at hb
      | cons b0 bs =>
        simp at ha hb
        simp [ih ha hb]

lemma select_ports_ok_shape {lower upper : Int} {n : Nat} {os os' : OSState}
    {ps : List Int}
    (h : select_ports lower upper n os = .ok (ps, os')) :
    ps.length = n ∧ ps.Nodup := by
  unfold select_ports at h
  split at h
  · simp at h
  · rename_i ps1 os1 hg
    simp at h
    obtain ⟨hps, _⟩ := h
    subst hps
    have hgo := select_ports_go_ok hg
    exact ⟨hgo.1, hgo.2.1⟩

lemma fiveRemotePorts_length {cf : ConnInfo} {rports : List Int}
    (h : fiveRemotePorts cf = .ok rports) : rports.length = 5 := by
  unfold fiveRemotePorts at h
  split at h
  · simp at h
    subst h
    rfl
  all_goals simp at h

lemma tunnel_to_kernel_ok {st st' : ProvState} {env env' : TunnelEnv} {cf : ConnInfo}
    {lports : List Int}
    (htun : st.tunnel_processes = [])
    (h : tunnel_to_kernel st env cf = .ok (lports, st', env')) :
    lports.length = 5 ∧ lports.Nodup ∧
    st'.tunnel_processes.map Prod.fst = kernelChannelsFive ∧
    st'.connection_info = st.connection_info := by
  unfold tunnel_to_kernel at h
  split at h
  · simp at h
  · rename_i lps os1 hsel
    split at h
    · simp at h
    · rename_i rports hfive
      split at h
      · simp at h
      · rename_i rip hip
        split at h
        · simp at h
        · rename_i hssh
          split at h
          · simp at h
          · rename_i st1 env1 hct
            simp at h
            obtain ⟨hlp, hst, henv⟩ := h
            subst hlp; subst hst; subst henv
            obtain ⟨hlen, hnodup⟩ := select_ports_ok_shape hsel
            have hrlen := fiveRemotePorts_length hfive
            have hchmap : ((lps.zip (rports.zip kernelChannelsFive)).map
                (fun t => t.2.2)) = kernelChannelsFive := by
              refine zip3_channels_map ?_ ?_ <;>
                simp [hlen, hrlen, kernelChannelsFive]
            have hchnd : ((lps.zip (rports.zip kernelChannelsFive)).map
                (fun t => t.2.2)).Nodup := by
              rw [hchmap]
              simp [kernelChannelsFive]
            have hfresh : ∀ t ∈ lps.zip (rports.zip kernelChannelsFive),
                st.tunnel_processes.find? (fun kv => kv.1 == t.2.2) = none := by
              intro t _
              rw [htun]
              rfl
            obtain ⟨hmap, hci⟩ := create_tunnels_ok hchnd hfresh hct
            rw [htun] at hmap
            simp at hmap
            rw [hmap, hchmap]
            exact ⟨hlen, hnodup, rfl, hci⟩

lemma update_connection_ok {env : TunnelEnv} {st st' : ProvState} {ci : ConnInfo}
    (h : update_connection env st ci = .ok st') :
    st'.tunnel_processes = st.tunnel_processes ∧
    st'.connection_info = mergeConnInfo st.connection_info
      { ci with pid := none, pgid := none } := by
  unfold update_connection at h
  split at h
  · simp at h
  · unfold extract_pid_info at h
    simp at h
    subst h
    constructor
    · unfold apply_ip_switch apply_pgid apply_pid
      split_ifs <;> rfl
    · unfold apply_ip_switch apply_pgid apply_pid
      split_ifs <;> rfl

/-- C1: with tunneling enabled, processing a received connection payload
that carries the five channel ports (and no communication port) leaves
connection_info with ip 127.0.0.1 and its five channel ports replaced by
five pairwise-distinct locally allocated tunnel ports, and tracks five
tunnel processes under the channel names SHELL, IOPUB, STDIN, HB,
CONTROL. -/
theorem setup_connection_info_tunneling (st : ProvState) (env : TunnelEnv)
    (ci0 : ConnInfo) (st' : ProvState) (env' : TunnelEnv)
    (hcomm : ci0.comm_port = none)
    (htun : st.tunnel_processes = [])
    (h : setup_connection_info true st env ci0 = .ok (st', env')) :
    st'.connection_info.ip = some "127.0.0.1" ∧
    st'.tunnel_processes.map Prod.fst = kernelChannelsFive ∧
    (∀ x ∈ fivePorts st'.connection_info, x.isSome = true) ∧
    (fivePorts st'.connection_info).Nodup := by
  unfold setup_connection_info setup_connection_info_core at h
  rw [if_pos rfl] at h
  split at h
  · simp at h
  · rename_i lports st1 env1 hker
    have hker5 := tunnel_to_kernel_ok (by exact htun) hker
    obtain ⟨hlen, hnodup, hmap, _⟩ := hker5
    split at h
    · rename_i p0 p1 p2 p3 p4
      split at h
      · rename_i cp hcp
        dsimp only at hcp
        rw [hcomm] at hcp
        simp at hcp
      · split at h
        · simp at h
        · rename_i st2 hupd
          simp at h
          obtain ⟨hst, henv⟩ := h
          subst hst; subst henv
          obtain ⟨htp, hci⟩ := update_connection_ok hupd
          refine ⟨?_, ?_, ?_, ?_⟩
          · rw [hci]
            simp [mergeConnInfo, updField, tunneledPayload]
          · rw [htp]
            exact hmap
          · rw [hci]
            simp [fivePorts, mergeConnInfo, updField, tunneledPayload]
          · rw [hci]
            have hfp : fivePorts (mergeConnInfo st1.connection_info
                { tunneledPayload { ci0 with ip := st.assigned_ip } p0 p1 p2 p3 p4 with
                  pid := none, pgid := none }) = [p0, p1, p2, p3, p4].map some := by
              simp [fivePorts, mergeConnInfo, updField, tunneledPayload]
            rw [hfp]
            exact hnodup.map (Option.some_injective Int)
    · rename_i hnot5
      exfalso
      have h5 : ∃ q0 q1 q2 q3 q4, lports = [q0, q1, q2, q3, q4] := by
        rcases lports with _ | ⟨a0, _ | ⟨a1, _ | ⟨a2, _ | ⟨a3, _ | ⟨a4, _ | ⟨a5, rest⟩⟩⟩⟩⟩⟩ <;>
          simp_all
      obtain ⟨q0, q1, q2, q3, q4, hq⟩ := h5
      exact hnot5 q0 q1 q2 q3 q4 hq

/-- Witness for C1 at a concrete state, payload and environment. -/
theorem setup_connection_info_tunneling_witness :
    setup_demo_st.connection_info.ip = some "127.0.0.1" ∧
    setup_demo_st.tunnel_processes.map Prod.fst = kernelChannelsFive ∧
    (fivePorts setup_demo_st.connection_info).Nodup := by
  have h := setup_connection_info_tunneling prov_demo tunnel_env_demo payload_demo
    setup_demo_st setup_demo_env rfl rfl rfl
  exact ⟨h.1, h.2.1, h.2.2.2⟩

/- ### Claim theorems: the confirmation loop -/

lemma confirm_go_timeout_truthy (cfg : ConfirmCfg) (env : ConfirmEnv)
    (hstat : ∀ i, pyTruthyStr (env.status i) = true)
    (hrecv : ∀ k, env.recv k = .timeoutErr) :
    ∀ fuel w, w.st.assigned_host ≠ "" →
      w.clockMs ≤ cfg.launchTimeoutMs →
      cfg.launchTimeoutMs < w.clockMs + fuel * cfg.pollMs →
      ∃ w', confirm_go cfg env fuel w = .raised .timeoutErrorLaunch w' ∧
        w'.kills = w.kills + 1 ∧
        cfg.launchTimeoutMs < w'.clockMs ∧
        w'.clockMs ≤ cfg.launchTimeoutMs + cfg.pollMs := by
  intro fuel
  induction fuel with
  | zero =>
    intro w _ hle hgt
    omega
  | succ f ih =>
    intro w hhost hle hgt
    have hmul : (f + 1) * cfg.pollMs = f * cfg.pollMs + cfg.pollMs := by ring
    rw [hmul] at hgt
    unfold confirm_go handle_launch_timeout
    by_cases hto : cfg.launchTimeoutMs < w.clockMs + cfg.pollMs
    · rw [if_pos hto]
      refine ⟨_, rfl, ?_, ?_, ?_⟩
      · simp [killW]
      · simp [killW]
        exact hto
      · simp [killW]
        omega
    · rw [if_neg hto]
      dsimp only
      rw [hstat]
      rw [if_pos rfl, if_pos hhost]
      unfold receive_connection_info
      rw [hrecv]
      dsimp only
      rw [if_neg (by simp : ¬ (false = true))]
      exact ih _ hhost (by dsimp only; omega) (by dsimp only; push_neg at hto; omega)

/-- C2: in a confirmation run whose connection info never arrives (every
receive attempt times out benignly while the container stays active), the
loop terminates by raising the launch-timeout error with elapsed time in
(launch_timeout, launch_timeout + poll_interval], after exactly one kill()
attempt. -/
theorem confirm_timeout (cfg : ConfirmCfg) (env : ConfirmEnv) (w : CWorld)
    (hpoll : 0 < cfg.pollMs)
    (hstat : ∀ i, pyTruthyStr (env.status i) = true)
    (hhost : w.st.assigned_host ≠ "")
    (hrecv : ∀ k, env.recv k = .timeoutErr)
    (hk : w.kills = 0) :
    ∃ w', confirm_remote_startup cfg env w = .raised .timeoutErrorLaunch w' ∧
      w'.kills = 1 ∧
      cfg.launchTimeoutMs < w'.clockMs ∧
      w'.clockMs ≤ cfg.launchTimeoutMs + cfg.pollMs := by
  unfold confirm_remote_startup
  have hbound : cfg.launchTimeoutMs <
      0 + (cfg.launchTimeoutMs / cfg.pollMs + 1) * cfg.pollMs := by
    have h1 := Nat.div_add_mod cfg.launchTimeoutMs cfg.pollMs
    have h2 := Nat.mod_lt cfg.launchTimeoutMs hpoll
    have h3 : (cfg.launchTimeoutMs / cfg.pollMs + 1) * cfg.pollMs =
        cfg.pollMs * (cfg.launchTimeoutMs / cfg.pollMs) + cfg.pollMs := by ring
    omega
  obtain ⟨w', heq, hkil, hlo, hhi⟩ := confirm_go_timeout_truthy cfg env hstat hrecv
    (cfg.launchTimeoutMs / cfg.pollMs + 1) { w with clockMs := 0, iter := 0 }
    hhost (by dsimp only; omega) hbound
  refine ⟨w', heq, ?_, hlo, hhi⟩
  simpa [hk] using hkil

/-- Witness for C2 at the concrete configuration (timeout 1000 ms, poll
500 ms) and silent-but-active environment: the loop raises the timeout at
1500 ms elapsed with exactly one kill. -/
theorem confirm_timeout_witness :
    confirm_demo_world.kills = 1 ∧ 1000 < confirm_demo_world.clockMs ∧
    confirm_demo_world.clockMs ≤ 1500 := by
  obtain ⟨w', heq, hkil, hlo, hhi⟩ := confirm_timeout cfg_demo cenv_demo cworld_demo
    (by decide) (fun i => rfl) (by decide) (fun k => rfl) rfl
  have h0 : confirm_demo = .raised .timeoutErrorLaunch w' := heq
  have h1 : confirm_demo_world = w' := by
    unfold confirm_demo_world
    rw [h0]
  rw [h1]
  exact ⟨hkil, hlo, hhi⟩

lemma confirm_go_timeout_falsy (cfg : ConfirmCfg) (env : ConfirmEnv)
    (hstat : ∀ i, pyTruthyStr (env.status i) = false)
    (hrc : ∀ k rc, env.localPoll k = some rc → rc ≤ 0) :
    ∀ fuel w, w.clockMs ≤ cfg.launchTimeoutMs →
      cfg.launchTimeoutMs < w.clockMs + fuel * cfg.pollMs →
      ∃ w', confirm_go cfg env fuel w = .raised .timeoutErrorLaunch w' := by
  intro fuel
  induction fuel with
  | zero =>
    intro w hle hgt
    omega
  | succ f ih =>
    intro w hle hgt
    have hmul : (f + 1) * cfg.pollMs = f * cfg.pollMs + cfg.pollMs := by ring
    rw [hmul] at hgt
    unfold confirm_go handle_launch_timeout
    by_cases hto : cfg.launchTimeoutMs < w.clockMs + cfg.pollMs
    · rw [if_pos hto]
      exact ⟨_, rfl⟩
    · rw [if_neg hto]
      dsimp only
      rw [hstat]
      rw [if_neg (by simp : ¬ (false = true))]
      unfold detect_launch_failure
      dsimp only
      by_cases hlp : w.st.local_proc = true
      · rw [if_pos hlp]
        rcases hpo : env.localPoll w.pollIdx with _ | rc
        · dsimp only
          exact ih _ (by dsimp only; omega) (by dsimp only; push_neg at hto; omega)
        · have hrcle := hrc _ _ hpo
          dsimp only
          rw [if_neg (by omega)]
          exact ih _ (by dsimp only; omega) (by dsimp only; push_neg at hto; omega)
      · rw [if_neg hlp]
        exact ih _ (by dsimp only; omega) (by dsimp only; push_neg at hto; omega)

/-- C10: detect_launch_failure raises the launch-fault error exactly when a
local process exists and its poll result is a strictly positive return
code; when the process was terminated by a signal (negative return code) or
exited with 0, no fault is raised, and a confirmation run whose status
stays falsy with such poll results continues to the full launch timeout. -/
theorem detect_launch_failure_spec (cfg : ConfirmCfg) (env : ConfirmEnv) (w : CWorld)
    (hpoll : 0 < cfg.pollMs)
    (hstat : ∀ i, pyTruthyStr (env.status i) = false)
    (hrc : ∀ k rc, env.localPoll k = some rc → rc ≤ 0) :
    (∀ env2 w2,
      (∃ w3, detect_launch_failure env2 w2 = .raise .runtimeErrorLaunchFault w3) ↔
      (w2.st.local_proc = true ∧
        ∃ rc, env2.localPoll w2.pollIdx = some rc ∧ 0 < rc)) ∧
    (∃ w', confirm_remote_startup cfg env w = .raised .timeoutErrorLaunch w') := by
  constructor
  · intro env2 w2
    constructor
    · intro ⟨w3, h3⟩
      unfold detect_launch_failure at h3
      split at h3
      · rename_i hlp
        split at h3
        · rename_i rc hpo
          split at h3
          · rename_i hpos
            exact ⟨hlp, rc, hpo, hpos⟩
          · simp at h3
        · simp at h3
      · simp at h3
    · intro ⟨hlp, rc, hpo, hpos⟩
      unfold detect_launch_failure
      rw [if_pos hlp, hpo]
      dsimp only
      rw [if_pos hpos]
      exact ⟨_, rfl⟩
  · unfold confirm_remote_startup
    have hbound : cfg.launchTimeoutMs <
        0 + (cfg.launchTimeoutMs / cfg.pollMs + 1) * cfg.pollMs := by
      have h1 := Nat.div_add_mod cfg.launchTimeoutMs cfg.pollMs
      have h2 := Nat.mod_lt cfg.launchTimeoutMs hpoll
      have h3 : (cfg.launchTimeoutMs / cfg.pollMs + 1) * cfg.pollMs =
          cfg.pollMs * (cfg.launchTimeoutMs / cfg.pollMs) + cfg.pollMs := by ring
      omega
    exact confirm_go_timeout_falsy cfg env hstat hrc
      (cfg.launchTimeoutMs / cfg.pollMs + 1) { w with clockMs := 0, iter := 0 }
      (by dsimp only; omega) hbound

/-- Witness for C10: with the local process terminated by a signal (poll
result -9) and a falsy container status, the run still ends in the
launch-timeout error rather than a launch fault. -/
theorem detect_launch_failure_spec_witness :
    confirm_demo2 = ConfirmOutcome.raised PyError.timeoutErrorLaunch
      confirm_demo2_world := by
  obtain ⟨_, w', heq⟩ := detect_launch_failure_spec cfg_demo cenv_demo2 cworld_demo
    (by decide) (fun i => rfl)
    (fun k rc h => by
      have h9 : rc = -9 := by
        have := h
        simp [cenv_demo2] at this
        omega
      omega)
  have h0 : confirm_demo2 = .raised .timeoutErrorLaunch w' := heq
  have h1 : confirm_demo2_world = w' := by
    unfold confirm_demo2_world
    rw [h0]
  rw [h1]
  exact h0
